import Mathlib

set_option linter.unusedVariables false

/-!
Shallow embedding of the IFTS data-collection script
(`automation/collect-data.js`): three Collectors (`collectCDCData`,
`collectMissouriData`, `collectBJSData`), an Aggregator (`createSummary`)
and a Sink (`saveData`), orchestrated by `main`.

Modelling choices, each translated directly from the source:
* The outside world is an explicit `Env`: whether a GET to a given URL
  succeeds (`fetchOk`), whether the file write of a given filename
  succeeds (`writeOk`), whether directory creation succeeds or fails with
  an already-exists error (`mkdirOk`), and a clock (`now`, indexed by the
  number of clock reads so far) standing in for `new Date().toISOString()`;
  timestamps are abstract `Nat` values.
* The run state is an explicit `World`: the files written so far (name and
  content, in write order) and the observable events, covering console
  output and issued GET requests.
* A JavaScript exception is an `Except.error`; a `try { } catch { }`
  becomes a `match` on the `Except` value.  Functions whose outermost
  statement is a catch-all `try/catch` (the three Collectors) therefore
  have no error channel at all: they are total and return `Option Dataset`,
  with `none` for the JS `return null`.
-/

/-- One reported figure, an element of a `statistics` array in the source;
the optional JS object fields become optional structure fields. -/
structure StatEntry where
  metric : String
  value : String
  description : Option String := none
  comparison : Option String := none
  multiplier : Option String := none
  percentage : Option String := none
  location : Option String := none
  year : Option Nat := none
  source : Option String := none
deriving DecidableEq, Repr

/-- One `{name, url}` pair of a `resources` array. -/
structure Resource where
  name : String
  url : String
deriving DecidableEq, Repr

/-- One entry of `reentryStatistics.challenges` (Missouri collector). -/
structure ReentryChallenge where
  category : String
  statistic : String
  description : String
deriving DecidableEq, Repr

/-- The `reentryStatistics` supplementary section (Missouri collector). -/
structure ReentryStats where
  description : String
  challenges : List ReentryChallenge
deriving DecidableEq, Repr

/-- The `africanAmericanWomenStatistics` supplementary section (BJS). -/
structure AfricanAmericanWomenStats where
  description : String
  statistics : List StatEntry
deriving DecidableEq, Repr

/-- One entry of `whatWorks.interventions` (BJS collector). -/
structure Intervention where
  intervention : String
  reduction : String
deriving DecidableEq, Repr

/-- The `whatWorks` supplementary section (BJS collector). -/
structure WhatWorks where
  description : String
  interventions : List Intervention
  source : String
deriving DecidableEq, Repr

/-- The output of one Collector (`data` object in the source).  The three
supplementary sections are optional: each Collector fills only its own. -/
structure Dataset where
  source : String
  lastUpdated : Nat
  category : String
  statistics : List StatEntry
  keyFindings : List String := []
  reentryStatistics : Option ReentryStats := none
  africanAmericanWomenStatistics : Option AfricanAmericanWomenStats := none
  whatWorks : Option WhatWorks := none
  resources : List Resource := []
deriving DecidableEq, Repr

/-- One entry of `summary.keyStatistics`. -/
structure KeyStat where
  label : String
  value : String
  description : Option String := none
  source : String
deriving DecidableEq, Repr

/-- One value of the `summary.impactAreas` mapping. -/
structure ImpactArea where
  need : String
  stats : List String
deriving DecidableEq, Repr

/-- The fixed-key `summary.impactAreas` mapping. -/
structure ImpactAreas where
  legal : ImpactArea
  education : ImpactArea
  health : ImpactArea
  housing : ImpactArea
  employment : ImpactArea
  mentorship : ImpactArea
deriving DecidableEq, Repr

/-- The `summary.missouriSpecific` mapping. -/
structure MissouriSpecific where
  totalIncarcerated : String
  femalePopulation : String
  releasedAnnually : String
  primaryFacility : String
  racialDisparity : String
deriving DecidableEq, Repr

/-- The Aggregator output written to `summary.json`. -/
structure Summary where
  title : String
  generatedAt : Nat
  purpose : String
  keyStatistics : List KeyStat
  impactAreas : ImpactAreas
  missouriSpecific : MissouriSpecific
  dataSources : List String
deriving DecidableEq, Repr

/-- One entry of `websiteStats.stats`. -/
structure WebsiteStat where
  key : String
  value : String
  label : String
deriving DecidableEq, Repr

/-- The DisplayStats artifact written to `website-stats.json`. -/
structure WebsiteStats where
  lastUpdated : Nat
  stats : List WebsiteStat
deriving DecidableEq, Repr

/-- Content of one written file. -/
inductive FileData where
  | dataset (d : Dataset)
  | summaryDoc (s : Summary)
  | statsDoc (s : WebsiteStats)
deriving DecidableEq, Repr

/-- Observable events of a run: console lines and issued GET requests.
Multi-line console banners are collapsed into a single event. -/
inductive Event where
  | logBanner
  | logCollectStart (name : String)
  | getRequest (url : String) (userAgent : String) (timeoutMs : Nat)
  | logFetchOk (name : String)
  | logFetchWarn (name : String)
  | logSaved (filename : String)
  | logCollectorError (name : String)
  | logSummaryStart
  | logCompletion
  | logTopLevelError
deriving DecidableEq, Repr

/-- Run state: files written so far (in write order) and events so far;
`clock` counts the `new Date()` reads performed. -/
structure World where
  files : List (String × FileData) := []
  events : List Event := []
  clock : Nat := 0
deriving DecidableEq, Repr

def World.init : World := {}

/-- The outside world: fetch outcomes per URL, write outcomes per
filename, directory-creation outcome, and the clock. `mkdirOk = true`
also covers the benign already-exists failure the source tolerates. -/
structure Env where
  fetchOk : String → Bool
  writeOk : String → Bool
  mkdirOk : Bool
  now : Nat → Nat

def logEvent (w : World) (e : Event) : World :=
  { w with events := w.events ++ [e] }

def readClock (env : Env) (w : World) : World × Nat :=
  ({ w with clock := w.clock + 1 }, env.now w.clock)

/-- Source `ensureOutputDir`: `fs.mkdir` with an `EEXIST` error swallowed;
any other failure propagates. -/
def ensureOutputDir (env : Env) (w : World) : World × Except Unit Unit :=
  if env.mkdirOk then (w, Except.ok ()) else (w, Except.error ())

/-- Sink: source `saveData(filename, data)` — `fs.writeFile` followed by a
confirmation log line; a write failure propagates as an exception. -/
def saveData (env : Env) (w : World) (filename : String) (d : FileData) :
    World × Except Unit Unit :=
  if env.writeOk filename then
    (logEvent { w with files := w.files ++ [(filename, d)] }
      (Event.logSaved filename), Except.ok ())
  else
    (w, Except.error ())

def userAgent : String := "Mozilla/5.0 (compatible; DataBot/1.0)"

def cdcUrl : String := "https://www.cdc.gov/hiv/group/correctional.html"

def docUrl : String := "https://doc.mo.gov/media-center/newsroom/data-and-statistics"

/-- The StatEntry pushed only on a successful CDC fetch
(`data.statistics.push` inside the inner `try`). -/
def cdcFetchedStat : StatEntry :=
  { metric := "HIV Rate in Prisons vs General Population"
    value := "5x higher"
    description := some "Incarcerated individuals have HIV rates approximately 5 times higher than the general population"
    source := some "CDC Correctional Health" }

/-- The four established CDC statistics pushed unconditionally. -/
def cdcStableStats : List StatEntry :=
  [ { metric := "HIV Prevalence in State Prisons"
      value := "1.3%"
      comparison := some "0.4% in general US population"
      multiplier := some "3.25x higher"
      year := some 2019
      source := some "CDC HIV Surveillance Report" },
    { metric := "Women with HIV in Prison"
      value := "1.9%"
      description := some "Female inmates have higher HIV rates than male inmates (1.3%)"
      year := some 2019
      source := some "Bureau of Justice Statistics / CDC" },
    { metric := "AIDS-Related Deaths in Prison"
      value := "Declining"
      description := some "Deaths have declined significantly with antiretroviral treatment availability"
      source := some "CDC" },
    { metric := "Hepatitis C in Prisons"
      value := "17-25%"
      description := some "Hepatitis C rates are significantly elevated in correctional populations"
      source := some "CDC Viral Hepatitis" } ]

def cdcKeyFindings : List String :=
  [ "Incarcerated populations face disproportionately high rates of HIV/AIDS",
    "Women in prison have higher HIV rates than incarcerated men",
    "African American women are disproportionately affected",
    "Lack of consistent healthcare post-release contributes to poor outcomes",
    "HIV testing and treatment in prisons has improved but gaps remain" ]

def cdcResources : List Resource :=
  [ { name := "CDC HIV and Corrections", url := "https://www.cdc.gov/hiv/group/correctional.html" },
    { name := "CDC HIV Statistics", url := "https://www.cdc.gov/hiv/statistics/overview/index.html" } ]

/-- The CDC Dataset as a function of the fetch outcome and the timestamp;
equals what `collectCDCData` builds (proved in `collectCDCData_result`). -/
def cdcDatasetAt (fetched : Bool) (t : Nat) : Dataset :=
  { source := "CDC - Centers for Disease Control and Prevention"
    lastUpdated := t
    category := "HIV/AIDS in Correctional Settings"
    statistics := (if fetched then [cdcFetchedStat] else []) ++ cdcStableStats
    keyFindings := cdcKeyFindings
    resources := cdcResources }

/-- Collector for CDC data (source `collectCDCData`).  The fetch is
attempted first; on success one extra StatEntry is pushed, on failure a
warning is logged.  The outer catch-all `try/catch` turns any exception —
in particular a failed Sink write — into an error log plus `return null`,
so the function is total and no error reaches the caller. -/
def collectCDCData (env : Env) (w : World) : World × Option Dataset :=
  let w := logEvent w (Event.logCollectStart "CDC")
  let (w, t) := readClock env w
  let w := logEvent w (Event.getRequest cdcUrl userAgent 15000)
  let (w, fetchedStats) :=
    if env.fetchOk cdcUrl then
      (w, [cdcFetchedStat])
    else
      (logEvent w (Event.logFetchWarn "CDC"), [])
  let data : Dataset :=
    { source := "CDC - Centers for Disease Control and Prevention"
      lastUpdated := t
      category := "HIV/AIDS in Correctional Settings"
      statistics := fetchedStats ++ cdcStableStats
      keyFindings := cdcKeyFindings
      resources := cdcResources }
  match saveData env w "cdc-hiv-aids.json" (FileData.dataset data) with
  | (w, Except.ok _) => (w, some data)
  | (w, Except.error _) => (logEvent w (Event.logCollectorError "CDC"), none)

/-- The five Missouri statistics pushed unconditionally. -/
def moStats : List StatEntry :=
  [ { metric := "Total Missouri Prison Population"
      value := "~23,000"
      description := some "Total individuals incarcerated in Missouri state prisons"
      year := some 2024
      source := some "Missouri DOC" },
    { metric := "Female Prison Population in Missouri"
      value := "~2,300"
      percentage := some "~10% of total"
      description := some "Women incarcerated in Missouri state facilities"
      year := some 2024
      source := some "Missouri DOC" },
    { metric := "African American Incarceration Rate (Missouri)"
      value := "5x higher"
      description := some "African Americans are incarcerated at 5 times the rate of whites in Missouri"
      source := some "Prison Policy Initiative / Missouri DOC" },
    { metric := "Women Released Annually (Missouri)"
      value := "~3,000"
      description := some "Estimated number of women released from Missouri prisons annually"
      source := some "Missouri DOC Annual Reports" },
    { metric := "Primary Women\x27s Facility"
      value := "Chillicothe Correctional Center"
      location := some "Chillicothe, MO"
      description := some "Primary facility housing female offenders in Missouri"
      source := some "Missouri DOC" } ]

def moReentryStats : ReentryStats :=
  { description := "Challenges facing women returning from incarceration in Missouri"
    challenges :=
      [ { category := "Housing", statistic := "60%+"
          description := "Women face housing instability within first year of release" },
        { category := "Employment", statistic := "27%"
          description := "Unemployment rate for formerly incarcerated individuals (vs 4% general)" },
        { category := "Healthcare Access", statistic := "70%"
          description := "Formerly incarcerated women report difficulty accessing healthcare" },
        { category := "Mental Health", statistic := "75%"
          description := "Incarcerated women report history of mental health issues" },
        { category := "Substance Abuse", statistic := "60%"
          description := "Women in prison report substance abuse history" },
        { category := "Trauma History", statistic := "86%"
          description := "Incarcerated women report history of physical or sexual abuse" } ] }

def moResources : List Resource :=
  [ { name := "Missouri DOC", url := "https://doc.mo.gov/" },
    { name := "Missouri DOC Data & Statistics", url := "https://doc.mo.gov/media-center/newsroom/data-and-statistics" },
    { name := "Missouri Reentry Process", url := "https://doc.mo.gov/divisions/probation-parole/reentry" } ]

/-- The Missouri Dataset as a function of the timestamp alone: the fetch
outcome does not occur in it (proved in `collectMissouriData_result`). -/
def moDatasetAt (t : Nat) : Dataset :=
  { source := "Missouri Department of Corrections"
    lastUpdated := t
    category := "Missouri Incarceration Statistics"
    statistics := moStats
    reentryStatistics := some moReentryStats
    resources := moResources }

/-- Collector for Missouri DOC data (source `collectMissouriData`).  The
fetch success branch only logs a confirmation line; nothing of the fetched
response is used.  Outer catch-all as in `collectCDCData`. -/
def collectMissouriData (env : Env) (w : World) : World × Option Dataset :=
  let w := logEvent w (Event.logCollectStart "Missouri")
  let (w, t) := readClock env w
  let w := logEvent w (Event.getRequest docUrl userAgent 15000)
  let w :=
    if env.fetchOk docUrl then
      logEvent w (Event.logFetchOk "Missouri")
    else
      logEvent w (Event.logFetchWarn "Missouri")
  let data : Dataset :=
    { source := "Missouri Department of Corrections"
      lastUpdated := t
      category := "Missouri Incarceration Statistics"
      statistics := moStats
      reentryStatistics := some moReentryStats
      resources := moResources }
  match saveData env w "missouri-doc.json" (FileData.dataset data) with
  | (w, Except.ok _) => (w, some data)
  | (w, Except.error _) => (logEvent w (Event.logCollectorError "Missouri"), none)

/-- The four BJS recidivism statistics pushed unconditionally. -/
def bjsStats : List StatEntry :=
  [ { metric := "National Recidivism Rate (5 years)"
      value := "44%"
      description := some "Percentage of released prisoners who return to prison within 5 years"
      year := some 2021
      source := some "BJS Recidivism of Prisoners Released Study" },
    { metric := "Women\x27s Recidivism Rate"
      value := "~40%"
      description := some "Women have slightly lower recidivism rates than men"
      comparison := some "Men: ~46%"
      source := some "BJS" },
    { metric := "3-Year Rearrest Rate"
      value := "68%"
      description := some "Percentage of released prisoners rearrested within 3 years"
      source := some "BJS" },
    { metric := "First Year Recidivism"
      value := "29%"
      description := some "Nearly one-third return within the first year - the critical period"
      source := some "BJS" } ]

def bjsAAWStats : AfricanAmericanWomenStats :=
  { description := "Statistics specific to African American women and incarceration"
    statistics :=
      [ { metric := "Incarceration Rate Disparity"
          value := "2x"
          description := some "African American women are incarcerated at twice the rate of white women"
          source := some "The Sentencing Project" },
        { metric := "Lifetime Likelihood of Imprisonment"
          value := "1 in 18"
          description := some "Lifetime likelihood of imprisonment for Black women (vs 1 in 111 for white women)"
          source := some "BJS" },
        { metric := "Percentage of Female Prison Population"
          value := "~22%"
          description := some "African American women as percentage of total female prison population"
          comparison := some "~13% of US female population"
          source := some "BJS / Census" } ] }

def bjsWhatWorks : WhatWorks :=
  { description := "Evidence-based practices that reduce recidivism"
    interventions :=
      [ { intervention := "Education Programs", reduction := "43% lower recidivism" },
        { intervention := "Vocational Training", reduction := "28% lower recidivism" },
        { intervention := "Cognitive Behavioral Therapy", reduction := "25% lower recidivism" },
        { intervention := "Mentorship Programs", reduction := "20-30% lower recidivism" },
        { intervention := "Transitional Housing", reduction := "Significant reduction in first-year returns" },
        { intervention := "Employment Assistance", reduction := "Critical for long-term success" } ]
    source := "RAND Corporation / National Institute of Justice" }

def bjsResources : List Resource :=
  [ { name := "Bureau of Justice Statistics", url := "https://bjs.ojp.gov/" },
    { name := "BJS Recidivism Studies", url := "https://bjs.ojp.gov/topics/recidivism" },
    { name := "The Sentencing Project", url := "https://www.sentencingproject.org/" } ]

/-- The BJS Dataset as a function of the timestamp alone (proved in
`collectBJSData_result`). -/
def bjsDatasetAt (t : Nat) : Dataset :=
  { source := "Bureau of Justice Statistics (BJS)"
    lastUpdated := t
    category := "Recidivism and Reentry Statistics"
    statistics := bjsStats
    africanAmericanWomenStatistics := some bjsAAWStats
    whatWorks := some bjsWhatWorks
    resources := bjsResources }

/-- Collector for BJS data (source `collectBJSData`).  Unlike the other
two Collectors, the source performs no network request here at all: it
builds the Dataset and saves it.  Outer catch-all as in `collectCDCData`. -/
def collectBJSData (env : Env) (w : World) : World × Option Dataset :=
  let w := logEvent w (Event.logCollectStart "BJS")
  let (w, t) := readClock env w
  let data : Dataset :=
    { source := "Bureau of Justice Statistics (BJS)"
      lastUpdated := t
      category := "Recidivism and Reentry Statistics"
      statistics := bjsStats
      africanAmericanWomenStatistics := some bjsAAWStats
      whatWorks := some bjsWhatWorks
      resources := bjsResources }
  match saveData env w "bjs-recidivism.json" (FileData.dataset data) with
  | (w, Except.ok _) => (w, some data)
  | (w, Except.error _) => (logEvent w (Event.logCollectorError "BJS"), none)

/-- The Summary object built by `createSummary` (a hand-authored constant
in the source; only `generatedAt` varies). -/
def summaryAt (t : Nat) : Summary :=
  { title := "Inn From the Storm - Impact Data Summary"
    generatedAt := t
    purpose := "Data supporting the mission of helping formerly incarcerated African American women in Missouri"
    keyStatistics :=
      [ { label := "African American Women Incarceration Rate"
          value := "2x higher than white women"
          source := "The Sentencing Project" },
        { label := "Housing Instability After Release"
          value := "60%+"
          description := some "Face housing instability within first year"
          source := "Multiple studies" },
        { label := "HIV Rate in Incarcerated Women"
          value := "5x higher than general population"
          source := "CDC" },
        { label := "National Recidivism Rate"
          value := "44%"
          description := some "Return to prison within 5 years"
          source := "Bureau of Justice Statistics" },
        { label := "IFTS Success Rate"
          value := "Only 2 lost to the system"
          description := some "Compared to 44% national recidivism rate"
          source := "Inn From the Storm" } ]
    impactAreas :=
      { legal :=
          { need := "Many returning women face ongoing legal challenges"
            stats := ["63% have pending legal issues at release", "Court navigation is a major barrier"] }
        education :=
          { need := "Education dramatically reduces recidivism"
            stats := ["43% reduction in recidivism with education programs", "GED completion opens employment doors"] }
        health :=
          { need := "HIV/AIDS and healthcare access"
            stats := ["Women in prison have 5x higher HIV rates", "70% report difficulty accessing healthcare post-release"] }
        housing :=
          { need := "Stable housing is foundational"
            stats := ["60%+ face housing instability in first year", "Housing is the #1 barrier to successful reentry"] }
        employment :=
          { need := "Employment prevents recidivism"
            stats := ["27% unemployment rate for formerly incarcerated", "Background check barriers affect 70%+"] }
        mentorship :=
          { need := "Peer support works"
            stats := ["20-30% reduction in recidivism with mentorship", "Hand in Hand model proves effective"] } }
    missouriSpecific :=
      { totalIncarcerated := "~23,000"
        femalePopulation := "~2,300"
        releasedAnnually := "~3,000 women"
        primaryFacility := "Chillicothe Correctional Center"
        racialDisparity := "5x higher incarceration rate for African Americans" }
    dataSources :=
      [ "CDC - Centers for Disease Control and Prevention",
        "Missouri Department of Corrections",
        "Bureau of Justice Statistics",
        "The Sentencing Project",
        "Prison Policy Initiative",
        "RAND Corporation" ] }

/-- The DisplayStats object built by `createSummary` (hand-authored
constant; only `lastUpdated` varies). -/
def websiteStatsAt (t : Nat) : WebsiteStats :=
  { lastUpdated := t
    stats :=
      [ { key := "incarceration_disparity", value := "2x"
          label := "African American women incarcerated at 2x the rate" },
        { key := "housing_instability", value := "60%"
          label := "Face housing instability in first year" },
        { key := "hiv_rate", value := "5x"
          label := "HIV rate compared to general population" },
        { key := "recidivism_national", value := "44%"
          label := "National 5-year recidivism rate" },
        { key := "education_impact", value := "43%"
          label := "Recidivism reduction with education" },
        { key := "trauma_history", value := "86%"
          label := "Incarcerated women with trauma history" } ] }

/-- Aggregator: source `createSummary(cdcData, missouriData, bjsData)`.
Note that, as in the source, the three Dataset parameters are never read:
the Summary and the DisplayStats are hand-authored constants.  There is no
catch here, so a failed Sink write propagates to the caller. -/
def createSummary (env : Env) (w : World)
    (cdcData missouriData bjsData : Option Dataset) :
    World × Except Unit Summary :=
  let w := logEvent w Event.logSummaryStart
  let (w, t) := readClock env w
  let summary := summaryAt t
  match saveData env w "summary.json" (FileData.summaryDoc summary) with
  | (w, Except.error e) => (w, Except.error e)
  | (w, Except.ok _) =>
    let (w, t2) := readClock env w
    let websiteStats := websiteStatsAt t2
    match saveData env w "website-stats.json" (FileData.statsDoc websiteStats) with
    | (w, Except.error e) => (w, Except.error e)
    | (w, Except.ok _) => (w, Except.ok summary)

/-- Body of source `main`, parameterized by the four flag conditions it
computes from `args` (`collectAll`, and membership of the three
recognized single-source flags). -/
def mainWith (env : Env) (collectAll cdcFlag missouriFlag bjsFlag : Bool) :
    World × Except Unit Unit :=
  let w := logEvent World.init Event.logBanner
  match ensureOutputDir env w with
  | (w, Except.error e) => (w, Except.error e)
  | (w, Except.ok _) =>
    let (w, cdcData) :=
      if collectAll || cdcFlag then collectCDCData env w else (w, none)
    let (w, missouriData) :=
      if collectAll || missouriFlag then collectMissouriData env w else (w, none)
    let (w, bjsData) :=
      if collectAll || bjsFlag then collectBJSData env w else (w, none)
    if collectAll then
      match createSummary env w cdcData missouriData bjsData with
      | (w, Except.error e) => (w, Except.error e)
      | (w, Except.ok _) => (logEvent w Event.logCompletion, Except.ok ())
    else
      (logEvent w Event.logCompletion, Except.ok ())

/-- Source `main(args)`: `collectAll = args.length === 0 || args.includes
("--all")`, and each Collector runs when `collectAll` or its flag is
present. -/
def mainRun (env : Env) (args : List String) : World × Except Unit Unit :=
  mainWith env (args.length == 0 || args.contains "--all")
    (args.contains "--cdc") (args.contains "--missouri") (args.contains "--bjs")

/-- The whole process: source top level `main().catch(console.error)`.
A rejected promise is handled by the `.catch` handler, which only logs the
error; the rejection therefore counts as handled and the Node process
exits with status 0 in every case.  The second component is the exit
status. -/
def program (env : Env) (args : List String) : World × Nat :=
  match mainRun env args with
  | (w, Except.ok _) => (w, 0)
  | (w, Except.error _) => (logEvent w Event.logTopLevelError, 0)

/-- Environment in which every external operation succeeds. -/
def envAllOk : Env :=
  { fetchOk := fun _ => true
    writeOk := fun _ => true
    mkdirOk := true
    now := fun _ => 0 }

/-- Every fetch fails; everything else succeeds. -/
def envFetchFail : Env :=
  { envAllOk with fetchOk := fun _ => false }

/-- Every file write fails; everything else succeeds. -/
def envWriteFail : Env :=
  { envAllOk with writeOk := fun _ => false }

/-- Only the write of `summary.json` fails. -/
def envSummaryWriteFail : Env :=
  { envAllOk with writeOk := fun f => !(f == "summary.json") }

/-- Events appended by one `collectCDCData` run, as a function of the
fetch and write outcomes. -/
def cdcEvents (fetched savedOk : Bool) : List Event :=
  [Event.logCollectStart "CDC", Event.getRequest cdcUrl userAgent 15000] ++
    (if fetched then [] else [Event.logFetchWarn "CDC"]) ++
    (if savedOk then [Event.logSaved "cdc-hiv-aids.json"]
     else [Event.logCollectorError "CDC"])

/-- Events appended by one `collectMissouriData` run. -/
def moEvents (fetched savedOk : Bool) : List Event :=
  [Event.logCollectStart "Missouri", Event.getRequest docUrl userAgent 15000] ++
    (if fetched then [Event.logFetchOk "Missouri"] else [Event.logFetchWarn "Missouri"]) ++
    (if savedOk then [Event.logSaved "missouri-doc.json"]
     else [Event.logCollectorError "Missouri"])

/-- Events appended by one `collectBJSData` run: note no GET request. -/
def bjsEvents (savedOk : Bool) : List Event :=
  [Event.logCollectStart "BJS"] ++
    (if savedOk then [Event.logSaved "bjs-recidivism.json"]
     else [Event.logCollectorError "BJS"])

/-- Events appended by one `createSummary` run. -/
def summaryEvents (s1 s2 : Bool) : List Event :=
  Event.logSummaryStart ::
    (if s1 then
      Event.logSaved "summary.json" ::
        (if s2 then [Event.logSaved "website-stats.json"] else [])
    else [])

/-- Files appended by one `collectCDCData` run starting at clock `c`. -/
def cdcFilesDelta (env : Env) (c : Nat) : List (String × FileData) :=
  if env.writeOk "cdc-hiv-aids.json" then
    [("cdc-hiv-aids.json", FileData.dataset (cdcDatasetAt (env.fetchOk cdcUrl) (env.now c)))]
  else []

/-- Files appended by one `collectMissouriData` run starting at clock `c`. -/
def moFilesDelta (env : Env) (c : Nat) : List (String × FileData) :=
  if env.writeOk "missouri-doc.json" then
    [("missouri-doc.json", FileData.dataset (moDatasetAt (env.now c)))]
  else []

/-- Files appended by one `collectBJSData` run starting at clock `c`. -/
def bjsFilesDelta (env : Env) (c : Nat) : List (String × FileData) :=
  if env.writeOk "bjs-recidivism.json" then
    [("bjs-recidivism.json", FileData.dataset (bjsDatasetAt (env.now c)))]
  else []

/-- Files appended by one `createSummary` run starting at clock `c`. -/
def summaryFilesDelta (env : Env) (c : Nat) : List (String × FileData) :=
  if env.writeOk "summary.json" then
    ("summary.json", FileData.summaryDoc (summaryAt (env.now c))) ::
      (if env.writeOk "website-stats.json" then
        [("website-stats.json", FileData.statsDoc (websiteStatsAt (env.now (c + 1))))]
      else [])
  else []

/-- Full characterization of one `collectCDCData` run. -/
theorem collectCDCData_eq (env : Env) (w : World) :
    collectCDCData env w =
      ({ files := w.files ++ cdcFilesDelta env w.clock
         events := w.events ++ cdcEvents (env.fetchOk cdcUrl) (env.writeOk "cdc-hiv-aids.json")
         clock := w.clock + 1 },
       if env.writeOk "cdc-hiv-aids.json" then
         some (cdcDatasetAt (env.fetchOk cdcUrl) (env.now w.clock))
       else none) := by
  cases hf : env.fetchOk cdcUrl <;> cases hw : env.writeOk "cdc-hiv-aids.json" <;>
    simp [collectCDCData, cdcFilesDelta, cdcEvents, cdcDatasetAt, saveData, logEvent,
      readClock, hf, hw, List.append_assoc]

/-- Full characterization of one `collectMissouriData` run. -/
theorem collectMissouriData_eq (env : Env) (w : World) :
    collectMissouriData env w =
      ({ files := w.files ++ moFilesDelta env w.clock
         events := w.events ++ moEvents (env.fetchOk docUrl) (env.writeOk "missouri-doc.json")
         clock := w.clock + 1 },
       if env.writeOk "missouri-doc.json" then some (moDatasetAt (env.now w.clock)) else none) := by
  cases hf : env.fetchOk docUrl <;> cases hw : env.writeOk "missouri-doc.json" <;>
    simp [collectMissouriData, moFilesDelta, moEvents, moDatasetAt, saveData, logEvent,
      readClock, hf, hw, List.append_assoc]

/-- Full characterization of one `collectBJSData` run. -/
theorem collectBJSData_eq (env : Env) (w : World) :
    collectBJSData env w =
      ({ files := w.files ++ bjsFilesDelta env w.clock
         events := w.events ++ bjsEvents (env.writeOk "bjs-recidivism.json")
         clock := w.clock + 1 },
       if env.writeOk "bjs-recidivism.json" then some (bjsDatasetAt (env.now w.clock)) else none) := by
  cases hw : env.writeOk "bjs-recidivism.json" <;>
    simp [collectBJSData, bjsFilesDelta, bjsEvents, bjsDatasetAt, saveData, logEvent,
      readClock, hw, List.append_assoc]

/-- Full characterization of one `createSummary` run.  The three Dataset
parameters do not occur on the right-hand side: the Aggregator ignores
them. -/
theorem createSummary_eq (env : Env) (w : World) (a b c : Option Dataset) :
    createSummary env w a b c =
      ({ files := w.files ++ summaryFilesDelta env w.clock
         events := w.events ++
           summaryEvents (env.writeOk "summary.json") (env.writeOk "website-stats.json")
         clock := w.clock + (if env.writeOk "summary.json" then 2 else 1) },
       if env.writeOk "summary.json" && env.writeOk "website-stats.json" then
         Except.ok (summaryAt (env.now w.clock))
       else Except.error ()) := by
  cases h1 : env.writeOk "summary.json" <;> cases h2 : env.writeOk "website-stats.json" <;>
    simp [createSummary, summaryFilesDelta, summaryEvents, saveData, logEvent, readClock,
      h1, h2, List.append_assoc]

/-- Events of a whole `mainWith` run (with directory creation succeeding),
as a function of the four flag conditions. -/
def mainEvents (env : Env) (A c m b : Bool) : List Event :=
  Event.logBanner ::
    ((if A || c then cdcEvents (env.fetchOk cdcUrl) (env.writeOk "cdc-hiv-aids.json") else []) ++
      ((if A || m then moEvents (env.fetchOk docUrl) (env.writeOk "missouri-doc.json") else []) ++
        ((if A || b then bjsEvents (env.writeOk "bjs-recidivism.json") else []) ++
          (if A then
            summaryEvents (env.writeOk "summary.json") (env.writeOk "website-stats.json") ++
              (if env.writeOk "summary.json" && env.writeOk "website-stats.json" then
                [Event.logCompletion]
              else [])
          else [Event.logCompletion]))))

/-- Events of `mainWith` when directory creation succeeds. -/
theorem mainWith_events (env : Env) (hd : env.mkdirOk = true) (A c m b : Bool) :
    (mainWith env A c m b).1.events = mainEvents env A c m b := by
  cases A <;> cases c <;> cases m <;> cases b <;>
    cases hs1 : env.writeOk "summary.json" <;> cases hs2 : env.writeOk "website-stats.json" <;>
      simp [mainWith, mainEvents, ensureOutputDir, hd, hs1, hs2, collectCDCData_eq,
        collectMissouriData_eq, collectBJSData_eq, createSummary_eq, logEvent, World.init,
        List.append_assoc]

theorem summaryStart_not_mem_cdcEvents (f s : Bool) :
    Event.logSummaryStart ∉ cdcEvents f s := by
  cases f <;> cases s <;> decide

theorem summaryStart_not_mem_moEvents (f s : Bool) :
    Event.logSummaryStart ∉ moEvents f s := by
  cases f <;> cases s <;> decide

theorem summaryStart_not_mem_bjsEvents (s : Bool) :
    Event.logSummaryStart ∉ bjsEvents s := by
  cases s <;> decide

/-- The aggregation-start console line occurs in a `mainWith` run exactly
when `collectAll` holds. -/
theorem summaryStart_mem_mainEvents (env : Env) (A c m b : Bool) :
    (Event.logSummaryStart ∈ mainEvents env A c m b) ↔ A = true := by
  cases A <;> cases c <;> cases m <;> cases b <;>
    simp [mainEvents, summaryEvents, List.mem_append, summaryStart_not_mem_cdcEvents,
      summaryStart_not_mem_moEvents, summaryStart_not_mem_bjsEvents]

/-- Over `mainRun`, the aggregation runs exactly for an empty argument
list or one containing `--all`. -/
theorem mainRun_summaryStart (env : Env) (hd : env.mkdirOk = true) (args : List String) :
    (Event.logSummaryStart ∈ (mainRun env args).1.events) ↔ (args = [] ∨ "--all" ∈ args) := by
  rw [mainRun, mainWith_events env hd, summaryStart_mem_mainEvents]
  simp [List.length_eq_zero]

/-- The top-level `.catch` handler adds no aggregation-start event. -/
theorem program_summaryStart (env : Env) (args : List String) :
    (Event.logSummaryStart ∈ (program env args).1.events) ↔
      (Event.logSummaryStart ∈ (mainRun env args).1.events) := by
  rcases h : mainRun env args with ⟨w, r⟩
  cases r <;> simp [program, h, logEvent]

/-- The resolvable source of a StatEntry: its own `source` field, falling
back to the owning Dataset source. -/
def resolvedSource (d : Dataset) (e : StatEntry) : String :=
  e.source.getD d.source

/-- A StatEntry is well-attributed: non-empty metric, value and resolvable
source. -/
def entryOk (d : Dataset) (e : StatEntry) : Bool :=
  (e.metric != "") && (e.value != "") && (resolvedSource d e != "")

/-- Every StatEntry of the Dataset — in `statistics` and in the StatEntry-
shaped `africanAmericanWomenStatistics` supplementary section — is
well-attributed. -/
def datasetOk (d : Dataset) : Bool :=
  d.statistics.all (entryOk d) &&
    (match d.africanAmericanWomenStatistics with
     | some sec => sec.statistics.all (entryOk d)
     | none => true)

theorem datasetOk_cdc (f : Bool) (t : Nat) : datasetOk (cdcDatasetAt f t) = true := by
  cases f <;> rfl

theorem datasetOk_mo (t : Nat) : datasetOk (moDatasetAt t) = true := rfl

theorem datasetOk_bjs (t : Nat) : datasetOk (bjsDatasetAt t) = true := rfl

/-- The URL of a GET-request event, if it is one. -/
def getUrlOfEvent : Event → Option String
  | Event.getRequest u _ _ => some u
  | _ => none

/-- All URLs to which a run issued GET requests, in order. -/
def getUrls (w : World) : List String :=
  w.events.filterMap getUrlOfEvent

theorem getUrls_bjsEvents (s : Bool) : (bjsEvents s).filterMap getUrlOfEvent = [] := by
  cases s <;> rfl

/-- The recognized command-line flags. -/
def isRecognized (s : String) : Bool :=
  s == "--all" || s == "--cdc" || s == "--missouri" || s == "--bjs"

theorem filter_contains_eq (l : List String) (x : String) (hx : isRecognized x = true) :
    (l.filter isRecognized).contains x = l.contains x := by
  induction l with
  | nil => rfl
  | cons a t ih =>
    by_cases hax : x = a
    · subst hax
      simp [List.filter_cons, hx, List.contains_cons, ih]
    · have hbeq : (x == a) = false := by simp [hax]
      cases hfa : isRecognized a <;>
        simp [List.filter_cons, hfa, List.contains_cons, hbeq, ih, hx, hax]

/-- C1 counterexample: with identical timestamps, forcing the CDC fetch
to succeed yields a Dataset with 5 statistics, forcing it to fail yields
4 — the fetch outcome does change the returned Dataset, refuting the
claim that it never does. -/
theorem C1_counterexample :
    ((collectCDCData envAllOk World.init).2.map (fun d => d.statistics.length) = some 5) ∧
    ((collectCDCData envFetchFail World.init).2.map (fun d => d.statistics.length) = some 4) ∧
    ((collectCDCData envAllOk World.init).2.map Dataset.lastUpdated =
      (collectCDCData envFetchFail World.init).2.map Dataset.lastUpdated) :=
  ⟨rfl, rfl, rfl⟩

/-- C1 (amended): for the Missouri and BJS Collectors the fetch outcome
never changes the returned Dataset (it depends only on the Sink outcome
and the clock), but for the CDC Collector a successful fetch prepends one
extra hardcoded StatEntry to `statistics`, so CDC success and failure
Datasets differ even at equal timestamps. -/
theorem C1_amended (env : Env) (w : World) :
    ((collectMissouriData env w).2 =
      if env.writeOk "missouri-doc.json" then some (moDatasetAt (env.now w.clock)) else none) ∧
    ((collectBJSData env w).2 =
      if env.writeOk "bjs-recidivism.json" then some (bjsDatasetAt (env.now w.clock)) else none) ∧
    ((collectCDCData env w).2 =
      if env.writeOk "cdc-hiv-aids.json" then
        some (cdcDatasetAt (env.fetchOk cdcUrl) (env.now w.clock))
      else none) ∧
    (∀ t, (cdcDatasetAt true t).statistics = cdcFetchedStat :: (cdcDatasetAt false t).statistics) ∧
    (∀ t, cdcDatasetAt true t ≠ cdcDatasetAt false t) := by
  refine ⟨by rw [collectMissouriData_eq], by rw [collectBJSData_eq], by rw [collectCDCData_eq],
    fun t => rfl, fun t h => ?_⟩
  have h5 := congrArg (fun d => d.statistics.length) h
  simp [cdcDatasetAt, cdcStableStats] at h5

/-- C2 counterexample: when the Sink write fails, the CDC Collector does
not propagate an error to its caller — it logs a Collector error and
returns `none`, exactly the swallowing path the claim denies. -/
theorem C2_counterexample :
    ((collectCDCData envWriteFail World.init).2 = none) ∧
    (Event.logCollectorError "CDC" ∈ (collectCDCData envWriteFail World.init).1.events) :=
  ⟨rfl, by decide⟩

/-- C2 (amended): if the persistence write fails, each Collector catches
the error in its outer catch-all handler like any other unexpected error:
it logs a Collector-level error message and reports `none` to the caller;
no exception propagates out of any Collector. -/
theorem C2_amended (env : Env) (w : World)
    (h1 : env.writeOk "cdc-hiv-aids.json" = false)
    (h2 : env.writeOk "missouri-doc.json" = false)
    (h3 : env.writeOk "bjs-recidivism.json" = false) :
    ((collectCDCData env w).2 = none ∧
      Event.logCollectorError "CDC" ∈ (collectCDCData env w).1.events) ∧
    ((collectMissouriData env w).2 = none ∧
      Event.logCollectorError "Missouri" ∈ (collectMissouriData env w).1.events) ∧
    ((collectBJSData env w).2 = none ∧
      Event.logCollectorError "BJS" ∈ (collectBJSData env w).1.events) := by
  refine ⟨⟨?_, ?_⟩, ⟨?_, ?_⟩, ⟨?_, ?_⟩⟩ <;>
    simp [collectCDCData_eq, collectMissouriData_eq, collectBJSData_eq, cdcEvents, moEvents,
      bjsEvents, h1, h2, h3, List.mem_append]

/-- C2 witness: a concrete environment in which every write fails. -/
theorem C2_witness :
    ((collectCDCData envWriteFail World.init).2 = none ∧
      Event.logCollectorError "CDC" ∈ (collectCDCData envWriteFail World.init).1.events) ∧
    ((collectMissouriData envWriteFail World.init).2 = none ∧
      Event.logCollectorError "Missouri" ∈ (collectMissouriData envWriteFail World.init).1.events) ∧
    ((collectBJSData envWriteFail World.init).2 = none ∧
      Event.logCollectorError "BJS" ∈ (collectBJSData envWriteFail World.init).1.events) :=
  C2_amended envWriteFail World.init rfl rfl rfl

/-- C3 counterexample: with the `summary.json` write failing, the run
raises an uncaught error out of `main`, the top-level handler logs it,
and the process still exits with status 0 — refuting the claimed
non-zero exit. -/
theorem C3_counterexample :
    ((mainRun envSummaryWriteFail []).2 = Except.error ()) ∧
    ((program envSummaryWriteFail []).2 = 0) ∧
    (Event.logTopLevelError ∈ (program envSummaryWriteFail []).1.events) :=
  ⟨rfl, rfl, by decide⟩

/-- C3 (amended): any uncaught error during the run is logged by the
top-level `.catch(console.error)` handler, but the process exits with
status 0 in every case — the exit status never distinguishes failure from
success. -/
theorem C3_amended (env : Env) (args : List String) :
    ((program env args).2 = 0) ∧
    ((mainRun env args).2 = Except.error () →
      Event.logTopLevelError ∈ (program env args).1.events) := by
  rcases h : mainRun env args with ⟨w, r⟩
  cases r <;> refine ⟨?_, fun hh => ?_⟩ <;>
    simp_all [program, h, logEvent, List.mem_append]

/-- C3 witness: the amended claim at the concrete failing environment. -/
theorem C3_witness :
    ((program envSummaryWriteFail []).2 = 0) ∧
    (Event.logTopLevelError ∈ (program envSummaryWriteFail []).1.events) :=
  ⟨(C3_amended envSummaryWriteFail []).1, (C3_amended envSummaryWriteFail []).2 rfl⟩

/-- C4 confirmed: with the network fetch forced to fail (and the Sink
write succeeding), every Collector returns normally — the fetch failure
is caught and logged inside the Collector, whose Lean embedding is a
total function with no error channel — and the returned Dataset has a
non-empty `statistics` sequence. -/
theorem C4 (env : Env) (w : World)
    (hc : env.fetchOk cdcUrl = false) (hm : env.fetchOk docUrl = false)
    (h1 : env.writeOk "cdc-hiv-aids.json" = true)
    (h2 : env.writeOk "missouri-doc.json" = true)
    (h3 : env.writeOk "bjs-recidivism.json" = true) :
    ((collectCDCData env w).2.map (fun d => d.statistics.isEmpty) = some false) ∧
    ((collectMissouriData env w).2.map (fun d => d.statistics.isEmpty) = some false) ∧
    ((collectBJSData env w).2.map (fun d => d.statistics.isEmpty) = some false) := by
  refine ⟨?_, ?_, ?_⟩ <;>
    simp [collectCDCData_eq, collectMissouriData_eq, collectBJSData_eq, h1, h2, h3, hc, hm,
      cdcDatasetAt, moDatasetAt, bjsDatasetAt, cdcStableStats, moStats, bjsStats]

/-- C4 witness: the concrete all-fetches-fail environment. -/
theorem C4_witness :
    ((collectCDCData envFetchFail World.init).2.map (fun d => d.statistics.isEmpty) = some false) ∧
    ((collectMissouriData envFetchFail World.init).2.map (fun d => d.statistics.isEmpty) = some false) ∧
    ((collectBJSData envFetchFail World.init).2.map (fun d => d.statistics.isEmpty) = some false) :=
  C4 envFetchFail World.init rfl rfl rfl rfl rfl

/-- C5 confirmed: the Aggregator ignores its three Dataset inputs — any
two invocations in the same state produce literally the same result — the
files it appends are a fixed Summary and DisplayStats depending only on
the clock and Sink outcomes, and DisplayStats always has exactly 6
entries. -/
theorem C5 (env : Env) (w : World) (a b c a2 b2 c2 : Option Dataset) :
    (createSummary env w a b c = createSummary env w a2 b2 c2) ∧
    ((createSummary env w a b c).1.files.drop w.files.length =
      if env.writeOk "summary.json" then
        ("summary.json", FileData.summaryDoc (summaryAt (env.now w.clock))) ::
          (if env.writeOk "website-stats.json" then
            [("website-stats.json", FileData.statsDoc (websiteStatsAt (env.now (w.clock + 1))))]
          else [])
      else []) ∧
    (∀ t, (websiteStatsAt t).stats.length = 6) := by
  refine ⟨rfl, ?_, fun t => rfl⟩
  rw [createSummary_eq]
  exact List.drop_left _ _

/-- C6 counterexample: an argument list containing only the unknown flag
`--foo` writes no files, while its filtration to recognized flags (the
empty list) performs the full run and writes all five files — the two
runs do not behave the same. -/
theorem C6_counterexample :
    ((program envAllOk ["--foo"]).1.files = []) ∧
    ((program envAllOk (["--foo"].filter isRecognized)).1.files.length = 5) :=
  ⟨rfl, rfl⟩

/-- C6 (amended): unknown flags never cause an error and never select a
Collector, but they are not fully inert: filtering the argument list down
to the recognized flags preserves the behavior only when the original
list is empty or the filtered list is non-empty.  A non-empty list of
only unknown flags runs no Collector and skips the Aggregator, unlike the
empty list, which runs everything. -/
theorem C6_amended (env : Env) (args : List String)
    (h : args = [] ∨ args.filter isRecognized ≠ []) :
    program env args = program env (args.filter isRecognized) := by
  rcases h with rfl | hne
  · rfl
  · have hargs : args ≠ [] := fun hh => hne (by simp [hh])
    have hall := filter_contains_eq args "--all" (by decide)
    have hcdc := filter_contains_eq args "--cdc" (by decide)
    have hmo := filter_contains_eq args "--missouri" (by decide)
    have hbjs := filter_contains_eq args "--bjs" (by decide)
    have hlen1 : (args.length == 0) = false := by
      cases args with
      | nil => exact absurd rfl hargs
      | cons a t => rfl
    have hlen2 : ((args.filter isRecognized).length == 0) = false := by
      cases hfe : args.filter isRecognized with
      | nil => exact absurd hfe hne
      | cons a t => rfl
    have hmain : mainRun env (args.filter isRecognized) = mainRun env args := by
      unfold mainRun
      rw [hall, hcdc, hmo, hbjs, hlen1, hlen2]
    unfold program
    rw [hmain]

/-- C6 witness: a list mixing an unknown and a recognized flag, where
filtration does preserve the behavior. -/
theorem C6_witness :
    program envAllOk ["--bogus", "--cdc"] =
      program envAllOk (["--bogus", "--cdc"].filter isRecognized) :=
  C6_amended envAllOk ["--bogus", "--cdc"] (Or.inr (by decide))

/-- C7 counterexample: a full run (no flags, everything succeeding)
issues GET requests to exactly two URLs — the CDC and Missouri DOC pages
— not three: the BJS Collector performs no fetch. -/
theorem C7_counterexample :
    (getUrls (program envAllOk []).1 = [cdcUrl, docUrl]) ∧
    ((getUrls (program envAllOk []).1).length = 2) :=
  ⟨rfl, rfl⟩

/-- C7 (amended): the CDC and Missouri Collectors each attempt one GET
request with the descriptive user-agent and a 15000 ms timeout to their
fixed URL; the BJS Collector issues no GET request at all, so a full run
contacts exactly two fixed URLs. -/
theorem C7_amended (env : Env) (w : World) :
    (Event.getRequest cdcUrl userAgent 15000 ∈ (collectCDCData env w).1.events) ∧
    (Event.getRequest docUrl userAgent 15000 ∈ (collectMissouriData env w).1.events) ∧
    (getUrls (collectBJSData env w).1 = getUrls w) := by
  refine ⟨?_, ?_, ?_⟩
  · simp [collectCDCData_eq, cdcEvents, List.mem_append]
  · simp [collectMissouriData_eq, moEvents, List.mem_append]
  · simp [getUrls, collectBJSData_eq, List.filterMap_append, getUrls_bjsEvents]

/-- C8 confirmed: a run with only `--cdc` writes `cdc-hiv-aids.json` and
nothing else (when directory creation and that write succeed; in all
other cases it writes nothing at all), and the Aggregator never starts,
so `summary.json` is never written. -/
theorem C8 (env : Env) :
    ((program env ["--cdc"]).1.files.map Prod.fst =
      if env.mkdirOk && env.writeOk "cdc-hiv-aids.json" then ["cdc-hiv-aids.json"] else []) ∧
    (Event.logSummaryStart ∉ (program env ["--cdc"]).1.events) := by
  have e : mainRun env ["--cdc"] = mainWith env false true false false := rfl
  constructor
  · cases hd : env.mkdirOk <;> cases hw : env.writeOk "cdc-hiv-aids.json" <;>
      simp [program, e, mainWith, ensureOutputDir, hd, hw, collectCDCData_eq, cdcFilesDelta,
        logEvent, World.init]
  · cases hd : env.mkdirOk
    · simp [program, e, mainWith, ensureOutputDir, hd, logEvent, World.init]
    · rw [program_summaryStart, mainRun_summaryStart env hd]
      simp

/-- C9 confirmed: every Dataset any Collector returns satisfies the
attribution invariant — each StatEntry (in `statistics` and in the
StatEntry-shaped supplementary section) has a non-empty metric, a
non-empty value, and a non-empty resolvable source. -/
theorem C9 (env : Env) (w : World) (d : Dataset)
    (h : (collectCDCData env w).2 = some d ∨ (collectMissouriData env w).2 = some d ∨
      (collectBJSData env w).2 = some d) :
    datasetOk d = true := by
  rcases h with h | h | h
  · rw [collectCDCData_eq] at h
    cases hw : env.writeOk "cdc-hiv-aids.json" <;> simp [hw] at h
    rw [← h]
    exact datasetOk_cdc _ _
  · rw [collectMissouriData_eq] at h
    cases hw : env.writeOk "missouri-doc.json" <;> simp [hw] at h
    rw [← h]
    exact datasetOk_mo _
  · rw [collectBJSData_eq] at h
    cases hw : env.writeOk "bjs-recidivism.json" <;> simp [hw] at h
    rw [← h]
    exact datasetOk_bjs _

/-- C9 witness: the Dataset the CDC Collector returns on a fully
successful run. -/
theorem C9_witness : datasetOk (cdcDatasetAt true 0) = true :=
  C9 envAllOk World.init (cdcDatasetAt true 0) (Or.inl rfl)

/-- C10 confirmed: running with `--cdc --missouri --bjs` (no `--all`)
writes exactly the three Dataset files and never starts the Aggregator;
in general the Aggregator starts exactly when the argument list is empty
or contains `--all`. -/
theorem C10 (env : Env) (hd : env.mkdirOk = true)
    (h1 : env.writeOk "cdc-hiv-aids.json" = true)
    (h2 : env.writeOk "missouri-doc.json" = true)
    (h3 : env.writeOk "bjs-recidivism.json" = true) :
    ((program env ["--cdc", "--missouri", "--bjs"]).1.files.map Prod.fst =
      ["cdc-hiv-aids.json", "missouri-doc.json", "bjs-recidivism.json"]) ∧
    (Event.logSummaryStart ∉ (program env ["--cdc", "--missouri", "--bjs"]).1.events) ∧
    (∀ args : List String,
      Event.logSummaryStart ∈ (program env args).1.events ↔ (args = [] ∨ "--all" ∈ args)) := by
  have e : mainRun env ["--cdc", "--missouri", "--bjs"] = mainWith env false true true true := rfl
  refine ⟨?_, ?_,
    fun args => (program_summaryStart env args).trans (mainRun_summaryStart env hd args)⟩
  · simp [program, e, mainWith, ensureOutputDir, hd, collectCDCData_eq, collectMissouriData_eq,
      collectBJSData_eq, cdcFilesDelta, moFilesDelta, bjsFilesDelta, h1, h2, h3, logEvent,
      World.init]
  · rw [program_summaryStart, mainRun_summaryStart env hd]
    simp

/-- C10 witness: the all-succeeding environment, with the Aggregator-iff
part instantiated at `--all`. -/
theorem C10_witness :
    ((program envAllOk ["--cdc", "--missouri", "--bjs"]).1.files.map Prod.fst =
      ["cdc-hiv-aids.json", "missouri-doc.json", "bjs-recidivism.json"]) ∧
    (Event.logSummaryStart ∉ (program envAllOk ["--cdc", "--missouri", "--bjs"]).1.events) ∧
    (Event.logSummaryStart ∈ (program envAllOk ["--all"]).1.events) :=
  ⟨(C10 envAllOk rfl rfl rfl rfl).1, (C10 envAllOk rfl rfl rfl rfl).2.1,
    ((C10 envAllOk rfl rfl rfl rfl).2.2 ["--all"]).mpr (Or.inr (by decide))⟩
